import Mathlib

/-!
Shallow embedding of the audio playback core of the Music-player repository
(src/src-tauri/src/music/player.rs and src/src-tauri/src/music/queue.rs).

Modelling conventions:
- Rust `Duration` values are nanosecond counts (`Nat`); `Instant` values are
  nanosecond timestamps (`Nat`).  `Instant::duration_since` saturates at zero,
  which truncated `Nat` subtraction models exactly.
- `f32` quantities (volume, samples, filter coefficients, gains) are modelled
  as exact rationals (`Rat`).  The claims settled here depend only on which
  expression the code evaluates, on data flow, and on integer truncation, not
  on `f32` rounding; every concrete input used below is exactly representable
  in `f32`, so the idealisation is faithful at those points.
- The transcendental `f32` library functions `sin`, `cos` and `powf` used by
  `BiquadFilter::new` are abstracted as an explicit parameter record
  `FloatOps`, since their values are irrelevant to every claim.
- `Instant::now()` is passed in as an explicit `now` argument at each call
  that reads the clock.
- The filesystem consulted by `load_song_file` is an explicit predicate on
  paths (paths are component lists, mirroring `PathBuf` push operations), and
  `crate::utils::commands::get_music_path` (outside the playback core) is
  abstracted as the `music_root` parameter.  `File::open` on a path whose
  existence was just checked is modelled as succeeding, returning the path as
  the handle.
-/

set_option autoImplicit false
set_option maxRecDepth 2000

namespace MusicPlayer

/-- The two fields of `db::types::Song` that the playback core reads:
the identifier (used for file resolution) and the duration in milliseconds
(`song.duration`, converted with `Duration::from_millis`). -/
structure Song where
  id : String
  duration : Nat
deriving DecidableEq, Repr

/-! ### PlaybackQueue (src/src-tauri/src/music/queue.rs) -/

/-- Source `Queue`: an ordered list of songs plus a cursor index. -/
structure Queue where
  songs : List Song
  current_index : Nat
deriving DecidableEq, Repr

namespace Queue

/-- Source `Queue::new`. -/
def new : Queue := { songs := [], current_index := 0 }

/-- Source `Queue::add_song`. -/
def add_song (q : Queue) (song : Song) : Queue :=
  { q with songs := q.songs ++ [song] }

/-- Source `Queue::remove_song`: removes the entry if the index is in bounds, and
then decrements the cursor when `current_index >= index && current_index > 0`. -/
def remove_song (q : Queue) (index : Nat) : Queue :=
  if index < q.songs.length then
    { songs := q.songs.eraseIdx index
      current_index :=
        if index ≤ q.current_index ∧ 0 < q.current_index then
          q.current_index - 1
        else q.current_index }
  else q

/-- Source `Queue::next`: on an empty queue returns `None` and changes nothing;
otherwise advances the cursor cyclically and returns the new current song
(the source indexes `self.songs[self.current_index]`, always in bounds;
`List.get?` returns it as `some`). -/
def next (q : Queue) : Queue × Option Song :=
  if q.songs.isEmpty then (q, none)
  else
    let i := (q.current_index + 1) % q.songs.length
    ({ q with current_index := i }, q.songs.get? i)

/-- Source `Queue::prev`. -/
def prev (q : Queue) : Queue × Option Song :=
  if q.songs.isEmpty then (q, none)
  else
    let i := (q.current_index + q.songs.length - 1) % q.songs.length
    ({ q with current_index := i }, q.songs.get? i)

/-- Source `Queue::current`. -/
def current (q : Queue) : Option Song :=
  if q.songs.isEmpty then none else q.songs.get? q.current_index

/-- Source `Queue::clear`. -/
def clear (q : Queue) : Queue := { songs := [], current_index := 0 }

/-- Iterated `Queue::next`, discarding the returned songs. -/
def nextN (q : Queue) : Nat → Queue
  | 0 => q
  | k + 1 => nextN (q.next).1 k

end Queue

/-! ### BiquadFilter and Equalizer (src/src-tauri/src/music/player.rs) -/

/-- The five coefficients and four history cells of `BiquadFilter`. -/
structure BiquadFilter where
  b0 : Rat
  b1 : Rat
  b2 : Rat
  a1 : Rat
  a2 : Rat
  x1 : Rat
  x2 : Rat
  y1 : Rat
  y2 : Rat
deriving DecidableEq, Repr

/-- The transcendental `f32` library functions used by `BiquadFilter::new`,
kept abstract: `sin`, `cos`, and `powf` (as `powf base exponent`). -/
structure FloatOps where
  sin : Rat → Rat
  cos : Rat → Rat
  powf : Rat → Rat → Rat

/-- The `f32` constant `std::f32::consts::PI` (its exact rational value,
13176795 / 2^22). -/
def pi32 : Rat := 13176795 / 4194304

namespace BiquadFilter

/-- Source `BiquadFilter::new`: RBJ peaking-EQ coefficients from
(frequency, q, gain, sample_rate), history cells zeroed. -/
def new (ops : FloatOps) (frequency q gain : Rat) (sample_rate : Nat) :
    BiquadFilter :=
  let omega := 2 * pi32 * frequency / (sample_rate : Rat)
  let alpha := ops.sin omega / (2 * q)
  let a := ops.powf 10 (gain / 40)
  let b0 := 1 + alpha * a
  let b1 := -2 * ops.cos omega
  let b2 := 1 - alpha * a
  let a0 := 1 + alpha / a
  let a1 := -2 * ops.cos omega
  let a2 := 1 - alpha / a
  { b0 := b0 / a0, b1 := b1 / a0, b2 := b2 / a0
    a1 := a1 / a0, a2 := a2 / a0
    x1 := 0, x2 := 0, y1 := 0, y2 := 0 }

/-- Source `BiquadFilter::process`: computes the direct-form-I output, then shifts
the history cells, returning the output and the updated filter. -/
def process (f : BiquadFilter) (input : Rat) : Rat × BiquadFilter :=
  let output :=
    f.b0 * input + f.b1 * f.x1 + f.b2 * f.x2 - f.a1 * f.y1 - f.a2 * f.y2
  (output, { f with x2 := f.x1, x1 := input, y2 := f.y1, y1 := output })

end BiquadFilter

/-- The fixed center-frequency list of `Equalizer::new`. -/
def frequencies : List Rat :=
  [32, 64, 125, 250, 500, 1000, 2000, 4000, 8000, 16000]

/-- Source `Equalizer<S>`: a source plus a vector of biquad filters.  The source
type is abstract (`α`); its sample rate is passed alongside it where the
Rust code reads `source.sample_rate()`. -/
structure Equalizer (α : Type) where
  source : α
  filters : List BiquadFilter

/-- Source `Equalizer::new`: zips the fixed frequency list with the supplied gains
and builds one `BiquadFilter` per pair with Q = 1.41. -/
def Equalizer.new {α : Type} (ops : FloatOps) (source : α) (sample_rate : Nat)
    (gains : List Rat) : Equalizer α :=
  { source
    filters :=
      (frequencies.zip gains).map
        (fun fg => BiquadFilter.new ops fg.1 (141 / 100) fg.2 sample_rate) }

/-! ### AudioPlayer (src/src-tauri/src/music/player.rs) -/

/-- The rodio `Sink` as the playback core drives it: the queue of appended
sources, the paused flag (toggled by `play`, `pause`, `stop`) and the output
gain set by `set_volume`. -/
structure Sink (α : Type) where
  queued : List (Equalizer α)
  paused : Bool
  volume : Rat

/-- The `AudioPlayer` state: sink plus the timing fields, flags, volume,
queue and EQ settings (the `EQSettings` hash map is a list of
label/gain-text pairs). -/
structure AudioPlayer (α : Type) where
  sink : Sink α
  duration : Nat
  progress : Nat
  eq_settings : List (String × String)
  is_playing : Bool
  last_update : Nat
  looping : Bool
  muted : Bool
  volume : Rat
  queue : Queue
  lossless : Bool

namespace AudioPlayer

variable {α : Type}

/-- Source `AudioPlayer::get_playback_position`: when playing, accrues
`now - last_update` into `progress` and snapshots `last_update`; returns the
(possibly updated) progress together with the new state. -/
def get_playback_position (p : AudioPlayer α) (now : Nat) :
    AudioPlayer α × Nat :=
  if p.is_playing then
    let elapsed := now - p.last_update
    let progress := p.progress + elapsed
    ({ p with progress := progress, last_update := now }, progress)
  else (p, p.progress)

/-- Source `AudioPlayer::play`: resumes the sink, sets `is_playing`, resets
`last_update` to now. -/
def play (p : AudioPlayer α) (now : Nat) : AudioPlayer α :=
  { p with sink := { p.sink with paused := false }
           is_playing := true
           last_update := now }

/-- Source `AudioPlayer::pause`: pauses the sink, clears `is_playing`, then calls
`get_playback_position` (in that order, as the source does). -/
def pause (p : AudioPlayer α) (now : Nat) : AudioPlayer α :=
  let p1 : AudioPlayer α :=
    { p with sink := { p.sink with paused := true }, is_playing := false }
  (p1.get_playback_position now).1

/-- Source `AudioPlayer::set_looping`. -/
def set_looping (p : AudioPlayer α) (looping : Bool) : AudioPlayer α :=
  { p with looping := looping }

/-- Source `AudioPlayer::set_muted`: stores the flag and sets the sink gain to 0 if
muted, else to the stored volume. -/
def set_muted (p : AudioPlayer α) (muted : Bool) : AudioPlayer α :=
  { p with muted := muted
           sink := { p.sink with volume := if muted then 0 else p.volume } }

/-- Source `AudioPlayer::set_volume`: stores the volume and, when not muted,
applies it to the sink gain. -/
def set_volume (p : AudioPlayer α) (volume : Rat) : AudioPlayer α :=
  let p1 : AudioPlayer α := { p with volume := volume }
  if p1.muted then p1
  else { p1 with sink := { p1.sink with volume := volume } }

/-- Source `AudioPlayer::set_eq_settings`. -/
def set_eq_settings (p : AudioPlayer α) (settings : List (String × String)) :
    AudioPlayer α :=
  { p with eq_settings := settings }

/-- Source `AudioPlayer::seek`: pauses the sink if playing, overwrites `progress`
with the requested position and `last_update` with now, then resumes if it
was playing.  Note there is no check that any track is loaded. -/
def seek (p : AudioPlayer α) (position : Nat) (now : Nat) : AudioPlayer α :=
  let was_playing := p.is_playing
  let p1 : AudioPlayer α :=
    if was_playing then
      { p with sink := { p.sink with paused := true }, is_playing := false }
    else p
  let p2 : AudioPlayer α :=
    { p1 with progress := position, last_update := now }
  if was_playing then
    { p2 with sink := { p2.sink with paused := false }, is_playing := true }
  else p2

/-- Source `AudioPlayer::skip_to`: `(duration.as_secs_f32() * percentage) as u64`
seconds, passed to `seek`.  The `as u64` cast truncates toward zero, maps
negatives to 0 and saturates at `u64::MAX`; `Int.toNat ∘ Rat.floor` with the
`min` models exactly that on the nonnegative range. -/
def skip_to (p : AudioPlayer α) (percentage : Rat) (now : Nat) :
    AudioPlayer α :=
  let secs : Rat := ((p.duration : Rat) / 1000000000) * percentage
  let position := min (Int.toNat ⌊secs⌋) (2 ^ 64 - 1)
  p.seek (position * 1000000000) now

/-- The hard-coded default gain vector of `load_song`
(`vec![4.6, 8.0, 4.6, 0.9, 0.0, 3.0, 0.9, 0.0, 0.0, 0.0]`). -/
def db_gains : List Rat := [46/10, 8, 46/10, 9/10, 0, 3, 9/10, 0, 0, 0]

/-- Source `AudioPlayer::load_song`: stops the sink (clearing the appended queue),
wraps the decoded stream in a fresh `Equalizer` with the default gains,
appends it, stores the duration (`Duration::from_millis(song.duration)`),
zeroes progress, snapshots `last_update`, and resumes iff it was playing.
The decoded sample stream and its sample rate stand in for
`Decoder::new(file).unwrap().convert_samples::<f32>()`. -/
def load_song (p : AudioPlayer α) (song : Song) (decoded : α)
    (sample_rate : Nat) (ops : FloatOps) (now : Nat) : AudioPlayer α :=
  let was_playing := p.is_playing
  let sink0 : Sink α := { p.sink with queued := [] }
  let source := Equalizer.new ops decoded sample_rate db_gains
  let sink1 : Sink α := { sink0 with queued := sink0.queued ++ [source] }
  let p1 : AudioPlayer α :=
    { p with sink := sink1
             duration := song.duration * 1000000
             progress := 0
             last_update := now }
  if was_playing then
    { p1 with sink := { p1.sink with paused := false }, is_playing := true }
  else p1

/-- A filesystem path as the list of components pushed onto the `PathBuf`. -/
abbrev Path := List String

/-- Source `AudioPlayer::load_song_file`: tries `{music_root}/Songs/{id}.flac`,
then `{music_root}/Songs/{id}.mp3`; errors when neither exists.  `fs` is
the existence predicate; opening an existing file is modelled as returning
its path as the handle. -/
def load_song_file (fs : Path → Bool) (music_root : Path) (song : Song) :
    Except String Path :=
  let base := music_root ++ ["Songs"]
  let flac_name := song.id ++ ".flac"
  let mp3_name := song.id ++ ".mp3"
  let flac_path := base ++ [flac_name]
  if fs flac_path then Except.ok flac_path
  else
    let mp3_path := base ++ [mp3_name]
    if fs mp3_path then Except.ok mp3_path
    else
      Except.error
        ("Song file not found: neither " ++ flac_name ++ " nor " ++ mp3_name)

/-- Source `AudioPlayer::skip`: advances the queue; when it yields a song whose
file resolves, loads it (decoding the handle via `decode`); a resolution
failure leaves everything but the queue cursor untouched. -/
def skip (fs : Path → Bool) (music_root : Path) (p : AudioPlayer α)
    (decode : Path → α) (sample_rate : Nat) (ops : FloatOps) (now : Nat) :
    AudioPlayer α :=
  match p.queue.next with
  | (q1, none) => { p with queue := q1 }
  | (q1, some song) =>
    let p1 : AudioPlayer α := { p with queue := q1 }
    match load_song_file fs music_root song with
    | Except.error _ => p1
    | Except.ok handle => p1.load_song song (decode handle) sample_rate ops now

/-- The `load_song` tauri command: resolves the file first and propagates
its error without touching any state; on success delegates to
`AudioPlayer::load_song`. -/
def load_song_command (fs : Path → Bool) (music_root : Path)
    (p : AudioPlayer α) (song : Song) (decode : Path → α) (sample_rate : Nat)
    (ops : FloatOps) (now : Nat) : AudioPlayer α × Except String Unit :=
  match load_song_file fs music_root song with
  | Except.error e => (p, Except.error e)
  | Except.ok handle =>
    (p.load_song song (decode handle) sample_rate ops now, Except.ok ())

/-- The `play_pause` tauri command. -/
def play_pause (p : AudioPlayer α) (now : Nat) : AudioPlayer α :=
  if p.is_playing then p.pause now else p.play now

/-- The `rewind` tauri command. -/
def rewind (p : AudioPlayer α) (now : Nat) : AudioPlayer α :=
  p.seek 0 now

end AudioPlayer

/-! ### Concrete states used to exercise the specifications -/

/-- A sample song. -/
def songA : Song := { id := "A", duration := 100000 }

/-- A sample song. -/
def songB : Song := { id := "B", duration := 200000 }

/-- A sample song. -/
def songC : Song := { id := "C", duration := 300000 }

/-- The three-song queue `[A, B, C]` with cursor 0. -/
def exampleQueueABC : Queue :=
  { songs := [songA, songB, songC], current_index := 0 }

/-- A player in the freshly-constructed state of `AudioPlayer::setup`
(empty sink, no track loaded, not playing), over the trivial source type. -/
def basePlayer : AudioPlayer Unit :=
  { sink := { queued := [], paused := false, volume := 1 }
    duration := 0
    progress := 0
    eq_settings := []
    is_playing := false
    last_update := 0
    looping := false
    muted := false
    volume := 1
    queue := Queue.new
    lossless := false }

/-- A playing player with 50 ns of accumulated progress, last updated at
instant 100 ns. -/
def playingPlayer : AudioPlayer Unit :=
  { basePlayer with is_playing := true, progress := 50, last_update := 100 }

/-- A player holding a 1000 ms track (duration stored in nanoseconds). -/
def shortTrackPlayer : AudioPlayer Unit :=
  { basePlayer with duration := 1000000000 }

/-- A player holding a 200000 ms track (duration stored in nanoseconds). -/
def longTrackPlayer : AudioPlayer Unit :=
  { basePlayer with duration := 200000000000 }

/-- Trivial interpretations of the abstract transcendental functions; the
claims never depend on their values. -/
def exampleOps : FloatOps :=
  { sin := fun _ => 0, cos := fun _ => 0, powf := fun _ _ => 1 }

/-- A filesystem on which only `root/Songs/A.flac` exists. -/
def fsFlacA : AudioPlayer.Path → Bool :=
  fun path => path == ["root", "Songs", "A.flac"]

/-- A filesystem on which only `root/Songs/A.mp3` exists. -/
def fsMp3A : AudioPlayer.Path → Bool :=
  fun path => path == ["root", "Songs", "A.mp3"]

/-- The empty filesystem. -/
def fsNone : AudioPlayer.Path → Bool := fun _ => false

/-- A trivial decoder for the trivial source type. -/
def decodeU : AudioPlayer.Path → Unit := fun _ => ()

/-! ### Shared helper lemmas -/

/-- Helper: `seek` overwrites exactly `progress` (with the requested position) and
`last_update` (with now); `is_playing`, `duration`, the queue and the sink
contents come out unchanged. -/
theorem seek_fields {α : Type} (p : AudioPlayer α) (position now : Nat) :
    (p.seek position now).progress = position
  ∧ (p.seek position now).last_update = now
  ∧ (p.seek position now).is_playing = p.is_playing
  ∧ (p.seek position now).duration = p.duration
  ∧ (p.seek position now).queue = p.queue
  ∧ (p.seek position now).sink.queued = p.sink.queued := by
  cases hp : p.is_playing <;>
    simp [AudioPlayer.seek, hp]

/-- Indexing a zipped-and-mapped list: the element at `i` exists exactly
when both lists reach `i`, and is then the image of the pair. -/
theorem zip_map_get? {α β γ : Type} (g : α → β → γ) :
    ∀ (l₁ : List α) (l₂ : List β) (i : Nat),
      ((l₁.zip l₂).map (fun p => g p.1 p.2)).get? i
        = (l₁.get? i).bind fun a => (l₂.get? i).map fun b => g a b
  | [], _, _ => by simp
  | _ :: _, [], _ => by simp
  | _ :: _, _ :: _, 0 => by simp
  | _ :: l₁, _ :: l₂, i + 1 => by
    simpa using zip_map_get? g l₁ l₂ i

/-! ### Claim theorems -/

/-- Claim C1: `get_playback_position` with `is_playing` true adds
`now - last_update` to `progress`, snapshots `last_update := now` and
returns the new progress; with `is_playing` false it returns `progress`
and leaves the state untouched, so a repeated call at any later instant
returns the same value. -/
theorem get_playback_position_spec {α : Type} (p : AudioPlayer α)
    (now now2 : Nat) :
    (p.is_playing = true →
      p.get_playback_position now =
        ({ p with progress := p.progress + (now - p.last_update)
                  last_update := now },
          p.progress + (now - p.last_update)))
  ∧ (p.is_playing = false →
      p.get_playback_position now = (p, p.progress)
      ∧ ((p.get_playback_position now).1.get_playback_position now2).2
          = (p.get_playback_position now).2) := by
  constructor <;> intro h <;>
    simp [AudioPlayer.get_playback_position, h]

/-- Witness for C1: a playing player (progress 50 ns, last update 100 ns)
queried at 130 ns reads 80 ns; a stopped player queried at 130 ns reads its
stored progress and is unchanged. -/
theorem get_playback_position_spec_witness :
    (AudioPlayer.get_playback_position playingPlayer 130).2 = 80
  ∧ AudioPlayer.get_playback_position basePlayer 130 = (basePlayer, 0) := by
  constructor
  · rw [(get_playback_position_spec playingPlayer 130 0).1 rfl]
    rfl
  · exact ((get_playback_position_spec basePlayer 130 0).2 rfl).1

/-- Claim C2: `load_song` replaces the sink contents with a single fresh
equalized stream, stores the song's duration (milliseconds, held as
nanoseconds), zeroes `progress`, snapshots `last_update`, resumes the sink
exactly when playback was active, and preserves `is_playing` — so loading
while Playing stays Playing and loading while Paused stays Paused, both
with `progress = 0` and the new duration. -/
theorem load_song_spec {α : Type} (p : AudioPlayer α) (song : Song)
    (decoded : α) (sample_rate : Nat) (ops : FloatOps) (now : Nat) :
    (p.load_song song decoded sample_rate ops now).sink.queued
        = [Equalizer.new ops decoded sample_rate AudioPlayer.db_gains]
  ∧ (p.load_song song decoded sample_rate ops now).duration
        = song.duration * 1000000
  ∧ (p.load_song song decoded sample_rate ops now).progress = 0
  ∧ (p.load_song song decoded sample_rate ops now).last_update = now
  ∧ (p.load_song song decoded sample_rate ops now).is_playing = p.is_playing
  ∧ (p.load_song song decoded sample_rate ops now).sink.paused
        = (if p.is_playing then false else p.sink.paused)
  ∧ (p.load_song song decoded sample_rate ops now).queue = p.queue
  ∧ (p.load_song song decoded sample_rate ops now).volume = p.volume
  ∧ (p.load_song song decoded sample_rate ops now).muted = p.muted := by
  cases hp : p.is_playing <;>
    simp [AudioPlayer.load_song, hp]

/-- Claim C3: after `set_volume v` then `set_muted false` the sink gain is
`v`; after `set_muted true` the sink gain is 0; `set_volume v` always
stores `v` and pushes it to the sink gain exactly when not muted. -/
theorem volume_mute_spec {α : Type} (p : AudioPlayer α) (v : Rat) :
    ((p.set_volume v).set_muted false).sink.volume = v
  ∧ (p.set_muted true).sink.volume = 0
  ∧ (p.set_volume v).volume = v
  ∧ (p.set_volume v).sink.volume
        = (if p.muted then p.sink.volume else v) := by
  cases hm : p.muted <;>
    simp [AudioPlayer.set_volume, AudioPlayer.set_muted, hm]

/-- Claim C6: `BiquadFilter::process` returns
`y = b0*x + b1*x1 + b2*x2 - a1*y1 - a2*y2` and shifts the history cells to
`(x1, x2) = (x, x1)` and `(y1, y2) = (y, y1)`.  Determinism is inherent in
the embedding: `process` is a pure function of the filter state and the
input, so identical coefficients, history and input yield identical
outputs and final states. -/
theorem biquad_process_spec (f : BiquadFilter) (x : Rat) :
    f.process x =
      (f.b0 * x + f.b1 * f.x1 + f.b2 * f.x2 - f.a1 * f.y1 - f.a2 * f.y2,
       { f with
          x1 := x
          x2 := f.x1
          y1 := f.b0 * x + f.b1 * f.x1 + f.b2 * f.x2 - f.a1 * f.y1
                  - f.a2 * f.y2
          y2 := f.y1 }) := rfl

/-- Counterexample to C4 as stated: on a 1000 ms track, `skip_to (1/2)`
should seek to `percentage × duration = 500 ms` (500000000 ns), but the
cast `(duration.as_secs_f32() * percentage) as u64` truncates 0.5 s to 0
whole seconds, so the resulting progress is 0, not 500000000.  (All values
here are exactly representable in `f32`, so the rational model computes
the very numbers the Rust code computes.) -/
theorem skip_to_counterexample :
    (AudioPlayer.skip_to shortTrackPlayer (1/2) 0).progress ≠ 500000000 := by
  have h : (AudioPlayer.skip_to shortTrackPlayer (1/2) 0).progress
      = min
          (Int.toNat
            ⌊(shortTrackPlayer.duration : Rat) / 1000000000 * (1/2)⌋)
          (2 ^ 64 - 1) * 1000000000 :=
    (seek_fields shortTrackPlayer _ 0).1
  have hfloor :
      ⌊(shortTrackPlayer.duration : Rat) / 1000000000 * (1/2)⌋ = 0 := by
    have hd : (shortTrackPlayer.duration : Rat) = 1000000000 := by
      norm_num [shortTrackPlayer, basePlayer]
    rw [hd]
    norm_num
  rw [h, hfloor]
  norm_num

/-- Claim C4 (amended): `skip_to percentage` truncates
`duration_in_seconds × percentage` to a whole number of seconds (the
`as u64` cast: floor, clamped to the `u64` range) and delegates to `seek`
with that many seconds; it leaves `is_playing`, `duration` and the queue
unchanged and stamps `last_update := now`.  In particular `skip_to 0.25`
on a 200000 ms track issues `seek 50000 ms` (progress 50000000000 ns). -/
theorem skip_to_spec {α : Type} (p : AudioPlayer α) (percentage : Rat)
    (now : Nat) :
    (p.skip_to percentage now).progress
        = min (Int.toNat ⌊(p.duration : Rat) / 1000000000 * percentage⌋)
            (2 ^ 64 - 1) * 1000000000
  ∧ (p.skip_to percentage now).is_playing = p.is_playing
  ∧ (p.skip_to percentage now).duration = p.duration
  ∧ (p.skip_to percentage now).queue = p.queue
  ∧ (p.skip_to percentage now).last_update = now
  ∧ (AudioPlayer.skip_to longTrackPlayer (1/4) 0).progress
        = 50000000000 := by
  have h := seek_fields p
    (min (Int.toNat ⌊(p.duration : Rat) / 1000000000 * percentage⌋)
      (2 ^ 64 - 1) * 1000000000) now
  refine ⟨?_, ?_, ?_, ?_, ?_, ?_⟩
  · exact h.1
  · exact h.2.2.1
  · exact h.2.2.2.1
  · exact h.2.2.2.2.1
  · exact h.2.1
  · have h2 : (AudioPlayer.skip_to longTrackPlayer (1/4) 0).progress
        = min
            (Int.toNat
              ⌊(longTrackPlayer.duration : Rat) / 1000000000 * (1/4)⌋)
            (2 ^ 64 - 1) * 1000000000 :=
      (seek_fields longTrackPlayer _ 0).1
    have hfloor :
        ⌊(longTrackPlayer.duration : Rat) / 1000000000 * (1/4)⌋ = 50 := by
      have hd : (longTrackPlayer.duration : Rat) = 200000000000 := by
        norm_num [longTrackPlayer, basePlayer]
      rw [hd]
      norm_num
    rw [h2, hfloor]
    norm_num
    decide

/-- Counterexample to C5 as stated: seeking when no track has been loaded
is not a state-preserving no-op — on the freshly-constructed player (empty
sink, progress 0), `seek 5000000000` overwrites `progress` with the
requested position. -/
theorem seek_counterexample :
    (AudioPlayer.seek basePlayer 5000000000 3).progress
      ≠ basePlayer.progress := by
  decide

/-- Claim C5 (amended): `skip` on an empty queue is a silent no-op leaving
the whole player state unchanged; `seek` never errors and leaves
`is_playing`, `duration`, the queue and the sink contents unchanged even
with no track loaded, but it does overwrite `progress` with the requested
position and `last_update` with now. -/
theorem noop_conditions_spec {α : Type} (fs : AudioPlayer.Path → Bool)
    (music_root : AudioPlayer.Path) (p : AudioPlayer α)
    (decode : AudioPlayer.Path → α) (sample_rate : Nat) (ops : FloatOps)
    (now position : Nat) :
    (p.queue.songs = [] →
      AudioPlayer.skip fs music_root p decode sample_rate ops now = p)
  ∧ (p.seek position now).is_playing = p.is_playing
  ∧ (p.seek position now).duration = p.duration
  ∧ (p.seek position now).queue = p.queue
  ∧ (p.seek position now).sink.queued = p.sink.queued
  ∧ (p.seek position now).progress = position
  ∧ (p.seek position now).last_update = now := by
  have h := seek_fields p position now
  refine ⟨?_, h.2.2.1, h.2.2.2.1, h.2.2.2.2.1, h.2.2.2.2.2, h.1, h.2.1⟩
  intro hq
  simp [AudioPlayer.skip, Queue.next, hq]

/-- Witness for C5: skipping with the empty queue of the fresh player over
the empty filesystem returns the player unchanged, while a seek to
5000000000 ns stamps exactly the progress and last-update fields. -/
theorem noop_conditions_spec_witness :
    AudioPlayer.skip fsNone ["root"] basePlayer decodeU 44100 exampleOps 7
        = basePlayer
  ∧ (AudioPlayer.seek basePlayer 5000000000 3).progress = 5000000000 := by
  have h := noop_conditions_spec fsNone ["root"] basePlayer decodeU 44100
    exampleOps 7 5000000000
  exact ⟨h.1 rfl, (noop_conditions_spec fsNone ["root"] basePlayer decodeU
    44100 exampleOps 3 5000000000).2.2.2.2.2.1⟩

/-- A single `next` on a non-empty queue: songs unchanged, cursor advanced
cyclically, and the song at the new cursor returned. -/
theorem next_step (q : Queue) (h : ¬ q.songs.isEmpty = true) :
    (q.next).1.songs = q.songs
  ∧ (q.next).1.current_index = (q.current_index + 1) % q.songs.length
  ∧ (q.next).2 = q.songs.get? ((q.current_index + 1) % q.songs.length) := by
  simp [Queue.next, h]

/-- Iterating `next` k times on a queue whose cursor is in bounds leaves
the songs unchanged and advances the cursor by k, modulo the length. -/
theorem nextN_cycle :
    ∀ (k : Nat) (q : Queue), q.current_index < q.songs.length →
      (q.nextN k).songs = q.songs
      ∧ (q.nextN k).current_index
          = (q.current_index + k) % q.songs.length
  | 0, q, h => ⟨rfl, (Nat.mod_eq_of_lt h).symm⟩
  | k + 1, q, h => by
    have hlen : 0 < q.songs.length := Nat.lt_of_le_of_lt (Nat.zero_le _) h
    have hne : ¬ q.songs.isEmpty = true := by
      simpa using List.length_pos.mp hlen
    have hstep := next_step q hne
    have hlt : (q.next).1.current_index < (q.next).1.songs.length := by
      rw [hstep.1, hstep.2.1]
      exact Nat.mod_lt _ hlen
    have ih := nextN_cycle k (q.next).1 hlt
    refine ⟨?_, ?_⟩
    · rw [show q.nextN (k + 1) = (q.next).1.nextN k from rfl, ih.1, hstep.1]
    · rw [show q.nextN (k + 1) = (q.next).1.nextN k from rfl, ih.2,
        hstep.1, hstep.2.1, Nat.mod_add_mod]
      congr 1
      omega

/-- Claim C7: on a queue with its cursor in bounds (hence non-empty),
`next` keeps the songs, moves the cursor to `(cursor + 1) % len` and
returns the song now under the cursor; iterating `next` exactly `len`
times returns the cursor to its starting value; on an empty queue `next`
returns `none` and changes nothing. -/
theorem queue_next_spec (q : Queue) :
    (q.current_index < q.songs.length →
      (q.next).1.songs = q.songs
      ∧ (q.next).1.current_index
          = (q.current_index + 1) % q.songs.length
      ∧ (q.next).2 = q.songs.get? ((q.current_index + 1) % q.songs.length)
      ∧ (q.nextN q.songs.length).songs = q.songs
      ∧ (q.nextN q.songs.length).current_index = q.current_index)
  ∧ (q.songs = [] → q.next = (q, none)) := by
  constructor
  · intro h
    have hlen : 0 < q.songs.length := Nat.lt_of_le_of_lt (Nat.zero_le _) h
    have hne : ¬ q.songs.isEmpty = true := by
      simpa using List.length_pos.mp hlen
    have hstep := next_step q hne
    have hcyc := nextN_cycle q.songs.length q h
    refine ⟨hstep.1, hstep.2.1, hstep.2.2, hcyc.1, ?_⟩
    rw [hcyc.2, Nat.add_mod_right]
    exact Nat.mod_eq_of_lt h
  · intro h
    simp [Queue.next, h]

/-- Witness for C7: on the queue `[A, B, C]` with cursor 0, `next` returns
`B`, and three `next` calls bring the cursor back to 0; on the empty queue
`next` returns `none` unchanged. -/
theorem queue_next_spec_witness :
    (exampleQueueABC.next).2 = some songB
  ∧ (exampleQueueABC.nextN 3).current_index = 0
  ∧ Queue.next Queue.new = (Queue.new, none) := by
  have h := (queue_next_spec exampleQueueABC).1 (by decide)
  have he := (queue_next_spec Queue.new).2 rfl
  exact ⟨h.2.2.1.trans (by decide), h.2.2.2.2, he⟩

/-- Claim C8: under the queue invariant (cursor in bounds, or 0), `remove`
erases the entry exactly when the index is in bounds and decrements the
cursor exactly when `index ≤ cursor` and `cursor > 0`; concretely, on
`[A, B, C]` with cursor 0, `remove 0` leaves cursor 0 and songs `[B, C]`,
after which `next` yields C, then B, then C. -/
theorem queue_remove_spec (q : Queue) (index : Nat)
    (hinv : q.current_index < q.songs.length ∨ q.current_index = 0) :
    ((q.remove_song index).songs
        = if index < q.songs.length then q.songs.eraseIdx index
          else q.songs)
  ∧ ((q.remove_song index).current_index
        = if index ≤ q.current_index ∧ 0 < q.current_index then
            q.current_index - 1
          else q.current_index)
  ∧ ((exampleQueueABC.remove_song 0).songs = [songB, songC]
      ∧ (exampleQueueABC.remove_song 0).current_index = 0
      ∧ ((exampleQueueABC.remove_song 0).next).2 = some songC
      ∧ (((exampleQueueABC.remove_song 0).next).1.next).2 = some songB
      ∧ ((((exampleQueueABC.remove_song 0).next).1.next).1.next).2
          = some songC) := by
  refine ⟨?_, ?_, by decide⟩
  · by_cases hlt : index < q.songs.length <;>
      simp [Queue.remove_song, hlt]
  · by_cases hlt : index < q.songs.length
    · by_cases hc : index ≤ q.current_index ∧ 0 < q.current_index <;>
        simp [Queue.remove_song, hlt, hc]
    · have hc : ¬ (index ≤ q.current_index ∧ 0 < q.current_index) := by
        rcases hinv with h | h <;> omega
      simp [Queue.remove_song, hlt, hc]

/-- Witness for C8: instantiated on `[A, B, C]` with cursor 0 (which
satisfies the invariant) and index 0, the removal yields `[B, C]` with
cursor 0. -/
theorem queue_remove_spec_witness :
    (exampleQueueABC.remove_song 0).songs = [songB, songC]
  ∧ (exampleQueueABC.remove_song 0).current_index = 0 := by
  have h := queue_remove_spec exampleQueueABC 0 (Or.inl (by decide))
  exact ⟨h.2.2.1, h.2.2.2.1⟩

/-- Claim C9: file resolution tries `{music_root}/Songs/{id}.flac` first,
then `{music_root}/Songs/{id}.mp3`, and errors exactly when neither
exists; when resolution fails, the `load_song` command returns the error
leaving the whole player state (sink, duration, progress, playing flag,
queue) untouched. -/
theorem load_song_file_spec {α : Type} (fs : AudioPlayer.Path → Bool)
    (music_root : AudioPlayer.Path) (song : Song) (p : AudioPlayer α)
    (decode : AudioPlayer.Path → α) (sample_rate : Nat) (ops : FloatOps)
    (now : Nat) :
    (fs (music_root ++ ["Songs", song.id ++ ".flac"]) = true →
      AudioPlayer.load_song_file fs music_root song
        = Except.ok (music_root ++ ["Songs", song.id ++ ".flac"]))
  ∧ (fs (music_root ++ ["Songs", song.id ++ ".flac"]) = false →
      fs (music_root ++ ["Songs", song.id ++ ".mp3"]) = true →
        AudioPlayer.load_song_file fs music_root song
          = Except.ok (music_root ++ ["Songs", song.id ++ ".mp3"]))
  ∧ ((∃ e, AudioPlayer.load_song_file fs music_root song = Except.error e)
        ↔ fs (music_root ++ ["Songs", song.id ++ ".flac"]) = false
          ∧ fs (music_root ++ ["Songs", song.id ++ ".mp3"]) = false)
  ∧ (fs (music_root ++ ["Songs", song.id ++ ".flac"]) = false →
      fs (music_root ++ ["Songs", song.id ++ ".mp3"]) = false →
        AudioPlayer.load_song_command fs music_root p song decode
            sample_rate ops now
          = (p, Except.error ("Song file not found: neither "
              ++ (song.id ++ ".flac") ++ " nor " ++ (song.id ++ ".mp3")))) := by
  by_cases hf : fs (music_root ++ ["Songs", song.id ++ ".flac"]) = true <;>
    by_cases hm : fs (music_root ++ ["Songs", song.id ++ ".mp3"]) = true <;>
    simp [AudioPlayer.load_song_file, AudioPlayer.load_song_command,
      hf, hm]

/-- Witness for C9: on a filesystem holding only `root/Songs/A.flac` the
flac path is returned; holding only `root/Songs/A.mp3` the mp3 path is
returned; on the empty filesystem the command errors and returns the
fresh player unchanged. -/
theorem load_song_file_spec_witness :
    AudioPlayer.load_song_file fsFlacA ["root"] songA
        = Except.ok ["root", "Songs", "A.flac"]
  ∧ AudioPlayer.load_song_file fsMp3A ["root"] songA
        = Except.ok ["root", "Songs", "A.mp3"]
  ∧ AudioPlayer.load_song_command fsNone ["root"] basePlayer songA decodeU
        44100 exampleOps 0
      = (basePlayer,
          Except.error "Song file not found: neither A.flac nor A.mp3") := by
  refine ⟨?_, ?_, ?_⟩
  · have h := (load_song_file_spec fsFlacA ["root"] songA basePlayer decodeU
      44100 exampleOps 0).1 (by decide)
    simpa using h
  · have h := (load_song_file_spec fsMp3A ["root"] songA basePlayer decodeU
      44100 exampleOps 0).2.1 (by decide) (by decide)
    simpa using h
  · have h := (load_song_file_spec fsNone ["root"] songA basePlayer decodeU
      44100 exampleOps 0).2.2.2 rfl rfl
    simpa using h

/-- Claim C10: `Equalizer::new` is total (no error path): for a gains
vector of any length k it builds exactly `min 10 k` filters — the zip with
the fixed ascending frequency list silently truncates whichever side is
longer — pairing the i-th frequency with the i-th gain, each with
Q = 1.41, and stores the source unchanged. -/
theorem equalizer_new_spec {α : Type} (ops : FloatOps) (source : α)
    (sample_rate : Nat) (gains : List Rat) (i : Nat) :
    (Equalizer.new ops source sample_rate gains).filters.length
        = min 10 gains.length
  ∧ ((Equalizer.new ops source sample_rate gains).filters.get? i
        = (frequencies.get? i).bind fun freq =>
            (gains.get? i).map fun gain =>
              BiquadFilter.new ops freq (141 / 100) gain sample_rate)
  ∧ (Equalizer.new ops source sample_rate gains).source = source
  ∧ frequencies.length = 10 := by
  refine ⟨?_, ?_, rfl, rfl⟩
  · simp [Equalizer.new, frequencies]
  · exact zip_map_get?
      (fun freq gain => BiquadFilter.new ops freq (141 / 100) gain
        sample_rate) frequencies gains i

end MusicPlayer
